import Mathlib

/-!
Shallow embedding of `src/main.py` (o11ybot): an Elasticsearch observability
analyzer.  The backend (Elasticsearch over HTTP) is external, so every
backend interaction is modelled as data supplied through an explicit
`Backend` environment: `none` models a raised transport exception, `some r`
models a returned response.  The analyzer methods are embedded as pure
Lean functions of that environment; `run_analysis` additionally returns the
ordered list of backend calls it performs, so that control-flow claims
(abort-on-probe-failure, which analyzer is invoked for which index) can be
stated about the call trace.
-/

namespace O11ybot

/-- Python `pat` is an initial run of `s` (char-list version of
`s.startswith(pat)`), used to implement substring containment. -/
def leadsList : List Char → List Char → Bool
  | [], _ => true
  | _ :: _, [] => false
  | a :: as, b :: bs => a == b && leadsList as bs

/-- `occursInList pat s`: `pat` occurs as a contiguous run of `s`
(char-list version of Python `pat in s`). -/
def occursInList (pat : List Char) : List Char → Bool
  | [] => pat.isEmpty
  | c :: cs => leadsList pat (c :: cs) || occursInList pat cs

/-- The Python containment test `pat in s` on strings. -/
def strContains (s pat : String) : Bool := occursInList pat.data s.data

/-- Number of positions of `s` at which `pat` occurs (occurrences may
overlap); used to state the "contains the index name exactly once" claim. -/
def countOcc (pat : List Char) : List Char → Nat
  | [] => 0
  | c :: cs => (if leadsList pat (c :: cs) then 1 else 0) + countOcc pat cs

/-- Number of occurrences of `pat` in the string `s`. -/
def strCountOcc (s pat : String) : Nat := countOcc pat.data s.data

/-- The classification test used at `main.py:263` and `main.py:285`:
Python `"metrics-" in index`. -/
def isMetricsIndex (index : String) : Bool := strContains index "metrics-"

/-- `IndexShape` from the spec data model: the classification of the
content of an index. -/
inductive IndexShape
  | Trace
  | Metrics
  | Unknown
deriving DecidableEq

/-- The shape the pipeline assigns to an index.  In the code this is the
`"metrics-" in index` test (`main.py:263`, `main.py:285`): marker present
means `Metrics`, otherwise the index is given the `Trace`/default handling. -/
def classify (index : String) : IndexShape :=
  if isMetricsIndex index then IndexShape.Metrics else IndexShape.Trace

/-- One aggregation bucket: `(key, doc_count)`. -/
structure Bucket where
  key : String
  doc_count : Nat
deriving DecidableEq

/-- A retrieved sample document: an arbitrary field-to-value mapping
(`_source` of a hit).  Only its identity matters to the claims. -/
abbrev SampleDoc := List (String × String)

/-- A generated ESQL example (`main.py:287` onward): title, description,
query text. -/
structure Template where
  title : String
  description : String
  esql : String
deriving DecidableEq, Inhabited

/-- Response to a `requests.post(.../_search)` call as far as the code
inspects it: HTTP status, and the index segment of `response.url`
(the code reads `response.url.split("/")[-2]` at `main.py:109`; for an
un-redirected request this is the pattern that was queried, but it is
backend-determined data, so it is a field of the response model). -/
structure Response where
  status : Nat
  urlIndex : String
deriving DecidableEq

/-- Response to the metricset-names aggregation query of
`analyze_metrics_data` (`main.py:185`): HTTP status, whether the parsed
body carries an `aggregations` key, and the metricset buckets under it. -/
structure MetricsAggResp where
  status : Nat
  hasAggregations : Bool
  buckets : List Bucket
deriving DecidableEq

/-- Response to a follow-up sample query (`main.py:222`): HTTP status and
the list of hits (each reduced to its `_source` mapping). -/
structure SampleResp where
  status : Nat
  hits : List SampleDoc
deriving DecidableEq

/-- One backend call (or display effect) performed by the pipeline, used to
state claims about which stages run. -/
inductive Call
  | connProbe
  | resolvePattern (pattern : String)
  | metricsAgg (index : String)
  | metricsSample (index : String) (metricset : String)
  | sampleShown (index : String) (metricset : String)
  | templates (index : String) (examples : List Template)
deriving DecidableEq

/-- The external Elasticsearch backend, as observed by each request the
code can issue.  `none` models a raised transport exception. -/
structure Backend where
  /-- Result of the `test_connection` probe (`main.py:50`): the HTTP
  status of `POST logs-*/_search`, or `none` if the request raised. -/
  connProbe : Option Nat
  /-- Result of the per-pattern search of `get_apm_indices`
  (`main.py:93`). -/
  patternSearch : String → Option Response
  /-- Result of the transaction-type aggregation of `analyze_trace_data`
  (`main.py:133`), already projected to the `transaction_types` buckets of
  the `aggregations` of the response; `none` models any exception raised
  by the search or the projection. -/
  traceAgg : String → Option (List Bucket)
  /-- Result of the metricset-names aggregation of `analyze_metrics_data`
  (`main.py:185`). -/
  metricsAggQuery : String → Option MetricsAggResp
  /-- Result of the per-metricset follow-up sample query
  (`main.py:222`), keyed by index and metricset name. -/
  sampleQuery : String → String → Option SampleResp

/-- `test_connection` (`main.py:46`): true iff the probe request returned
and its status was 200; an exception or any other status yields false. -/
def test_connection (probe : Option Nat) : Bool :=
  match probe with
  | none => false
  | some status => if status == 200 then true else false

/-- The fixed pattern list of `get_apm_indices` (`main.py:84`). -/
def apm_patterns : List String := ["apm-*", "traces-*", "logs-*", "metrics-*"]

/-- `found_indices.add name` (`main.py:110`): Python set insertion,
modelled on a duplicate-free list. -/
def insertDedup (acc : List String) (name : String) : List String :=
  if name ∈ acc then acc else acc ++ [name]

/-- The pattern loop of `get_apm_indices` (`main.py:92`).  Returns the
calls issued and either `some` found names, or `none` if a request raised
(the exception propagates to the handler at `main.py:113`).  A pattern
whose response has a non-200 status contributes nothing and the loop
continues. -/
def resolveLoop (search : String → Option Response) :
    List String → List String → List Call × Option (List String)
  | [], acc => ([], some acc)
  | p :: ps, acc =>
    match search p with
    | none => ([Call.resolvePattern p], none)
    | some r =>
      let rest := resolveLoop search ps
        (if r.status == 200 then insertDedup acc r.urlIndex else acc)
      (Call.resolvePattern p :: rest.1, rest.2)

/-- `get_apm_indices` (`main.py:80`): the found names, or `[]` when any
of the pattern requests raised (the `except` branch at `main.py:113`). -/
def get_apm_indices (search : String → Option Response) : List String :=
  match (resolveLoop search apm_patterns []).2 with
  | some found => found
  | none => []

/-- `analyze_trace_data` (`main.py:117`): the transaction-type buckets, or
`[]` when the search (or the bucket projection) raised. -/
def analyze_trace_data (probeResult : Option (List Bucket)) : List Bucket :=
  match probeResult with
  | some buckets => buckets
  | none => []

/-- The per-bucket follow-up loop of `analyze_metrics_data`
(`main.py:211`).  Returns the calls issued and whether the loop ran to
completion: a sample request that raises escapes to the method-level
handler (`main.py:241`), so the loop stops and the method returns
`False`; a sample response with non-200 status or no hits merely shows
nothing for that metricset and the loop continues. -/
def metricsSampleLoop (sample : String → Option SampleResp) (index : String) :
    List Bucket → List Call × Bool
  | [] => ([], true)
  | bk :: bks =>
    match sample bk.key with
    | none => ([Call.metricsSample index bk.key], false)
    | some r =>
      let rest := metricsSampleLoop sample index bks
      if r.status == 200 && !r.hits.isEmpty then
        (Call.metricsSample index bk.key :: Call.sampleShown index bk.key :: rest.1, rest.2)
      else
        (Call.metricsSample index bk.key :: rest.1, rest.2)

/-- `analyze_metrics_data` (`main.py:169`): the calls issued and the
returned boolean.  The method returns `True` on every path that does not
raise — including non-200 status, missing `aggregations`, and empty
buckets — and `False` only from the `except` handler. -/
def analyze_metrics_data (b : Backend) (index : String) : List Call × Bool :=
  match b.metricsAggQuery index with
  | none => ([Call.metricsAgg index], false)
  | some r =>
    if r.status == 200 then
      if r.hasAggregations then
        if r.buckets.isEmpty then ([Call.metricsAgg index], true)
        else
          let rest := metricsSampleLoop (b.sampleQuery index) index r.buckets
          (Call.metricsAgg index :: rest.1, rest.2)
      else ([Call.metricsAgg index], true)
    else ([Call.metricsAgg index], true)

/-- The metrics-branch catalog of `generate_esql_examples`
(`main.py:285`–`main.py:342`), in append order. -/
def metricsTemplates (index : String) : List Template := [
  { title := "System Metrics Analysis",
    description := "Analyze system metrics over time",
    esql := "\n                FROM " ++ index ++ "\n                | WHERE metricset.name == \"system\"\n                | STATS \n                    avg_cpu = AVG(system.cpu.cores),\n                    avg_memory = AVG(system.memory.actual.used.pct)\n                    BY host.name\n                | SORT avg_cpu DESC\n                " },
  { title := "System Load Analysis",
    description := "Analyze system load metrics",
    esql := "\n                FROM " ++ index ++ "\n                | WHERE metricset.name == \"system\"\n                | STATS \n                    avg_load_1m = AVG(system.load.1),\n                    avg_load_5m = AVG(system.load.5),\n                    avg_load_15m = AVG(system.load.15)\n                    BY host.name\n                | SORT avg_load_1m DESC\n                " },
  { title := "Memory Usage Analysis",
    description := "Analyze memory usage metrics",
    esql := "\n                FROM " ++ index ++ "\n                | WHERE metricset.name == \"system\"\n                | STATS \n                    avg_memory_used = AVG(system.memory.actual.used.pct),\n                    avg_memory_free = AVG(system.memory.actual.free.pct)\n                    BY host.name\n                | SORT avg_memory_used DESC\n                " },
  { title := "Filesystem Analysis",
    description := "Analyze filesystem metrics",
    esql := "\n                FROM " ++ index ++ "\n                | WHERE metricset.name == \"system\"\n                | STATS \n                    avg_disk_used = AVG(system.filesystem.used.pct),\n                    avg_disk_free = AVG(system.filesystem.free.pct)\n                    BY host.name, system.filesystem.mount_point\n                | SORT avg_disk_used DESC\n                " }]

/-- The trace (default) branch catalog of `generate_esql_examples`
(`main.py:344`–`main.py:417`), in append order. -/
def traceTemplates (index : String) : List Template := [
  { title := "Transaction Duration Analysis",
    description := "Analyze transaction durations by type",
    esql := "\n                FROM " ++ index ++ "\n                | WHERE transaction.type IS NOT NULL\n                | STATS \n                    avg_duration = AVG(transaction.duration.us),\n                    p95_duration = PERCENTILE(transaction.duration.us, 95),\n                    count = COUNT()\n                    BY transaction.type\n                | SORT avg_duration DESC\n                " },
  { title := "Error Analysis",
    description := "Analyze errors by transaction type",
    esql := "\n                FROM " ++ index ++ "\n                | WHERE transaction.result == \"error\"\n                | STATS \n                    error_count = COUNT(),\n                    avg_duration = AVG(transaction.duration.us)\n                    BY transaction.type\n                | SORT error_count DESC\n                " },
  { title := "Service Performance",
    description := "Analyze performance by service",
    esql := "\n                FROM " ++ index ++ "\n                | WHERE service.name IS NOT NULL\n                | STATS \n                    avg_duration = AVG(transaction.duration.us),\n                    p95_duration = PERCENTILE(transaction.duration.us, 95),\n                    count = COUNT()\n                    BY service.name\n                | SORT avg_duration DESC\n                " },
  { title := "Span Analysis",
    description := "Analyze spans by type and service",
    esql := "\n                FROM " ++ index ++ "\n                | WHERE span.type IS NOT NULL\n                | STATS \n                    avg_duration = AVG(span.duration.us),\n                    count = COUNT()\n                    BY span.type, service.name\n                | SORT avg_duration DESC\n                " },
  { title := "Response Time Analysis",
    description := "Analyze response times by endpoint",
    esql := "\n                FROM " ++ index ++ "\n                | WHERE transaction.type == \"request\"\n                | STATS \n                    avg_duration = AVG(transaction.duration.us),\n                    p95_duration = PERCENTILE(transaction.duration.us, 95),\n                    count = COUNT()\n                    BY transaction.name\n                | SORT avg_duration DESC\n                " }]

/-- `generate_esql_examples` (`main.py:280`): branch on
`"metrics-" in index`, building one of the two fixed catalogs.  The
`sample_doc` parameter (default `None` in the code) is never read. -/
def generate_esql_examples (index : String) (_sample_doc : Option SampleDoc) :
    List Template :=
  if isMetricsIndex index then metricsTemplates index else traceTemplates index

/-- The per-index body of the loop at `main.py:260`: metrics analysis when
the name carries the metrics marker, then generation and display of the
ESQL examples (`generate_esql_examples` is called with the default
`sample_doc=None`). -/
def perIndex (b : Backend) (index : String) : List Call :=
  (if isMetricsIndex index then (analyze_metrics_data b index).1 else [])
    ++ [Call.templates index (generate_esql_examples index none)]

/-- `run_analysis` (`main.py:245`) as its ordered backend-call trace:
abort after the probe when `test_connection` fails (`main.py:249`); resolve
indices; stop when none were found (the early return at `main.py:256`,
which contributes no further calls); otherwise process each index in
order. -/
def run_analysis (b : Backend) : List Call :=
  if test_connection b.connProbe then
    Call.connProbe ::
      ((resolveLoop b.patternSearch apm_patterns []).1 ++
        (if (get_apm_indices b.patternSearch).isEmpty then []
         else ((get_apm_indices b.patternSearch).map (perIndex b)).flatten))
  else [Call.connProbe]

/-- The indices the resolver hands to the per-index loop
(`main.py:253`). -/
def resolvedIndices (b : Backend) : List String :=
  get_apm_indices b.patternSearch

/-- A process environment: variable name to value, `none` when unset. -/
def Env : Type := String → Option String

/-- `os.environ[k] = v`. -/
def setEnv (e : Env) (k v : String) : Env :=
  fun k' => if k' == k then some v else e k'

/-- The URL literal assigned at `main.py:17`. -/
def elasticUrlLiteral : String :=
  "https://otel-demo-a5630c.es.us-east-1.aws.elastic.cloud"

/-- The API-key literal assigned at `main.py:18`. -/
def elasticApiKeyLiteral : String :=
  "ApiKey UHd2cXdKWUJ1aV9MRG9GdzAya206MFcwNVRfbkVhUjhIZ05hTEhtNnlzUQ=="

/-- The module-level environment after the unconditional assignments at
`main.py:17`–`main.py:18`, starting from any environment `e0` (whatever
`load_dotenv` produced). -/
def moduleEnv (e0 : Env) : Env :=
  setEnv (setEnv e0 "ELASTIC_URL" elasticUrlLiteral)
    "ELASTIC_API_KEY" elasticApiKeyLiteral

/-- Python truthiness of an optional string: `None` and `""` are falsy. -/
def truthyStr : Option String → Bool
  | none => false
  | some s => !(s == "")

/-- The guard of the `ValueError` raised by `ElasticAnalyzer.__init__`
(`main.py:30`): true iff the constructor raises, i.e. iff
`not base_url or not api_key` where both are read from the environment. -/
def initRaises (e : Env) : Bool :=
  !truthyStr (e "ELASTIC_URL") || !truthyStr (e "ELASTIC_API_KEY")

/-- A concrete backend on which every request succeeds: the probe returns
200, every pattern search returns 200 with the pattern itself as the
resolved name, and the metrics aggregation yields one `system` bucket. -/
def happyBackend : Backend where
  connProbe := some 200
  patternSearch := fun p => some { status := 200, urlIndex := p }
  traceAgg := fun _ => some []
  metricsAggQuery := fun _ => some { status := 200, hasAggregations := true, buckets := [{ key := "system", doc_count := 50 }] }
  sampleQuery := fun _ _ => some { status := 200, hits := [[("host.name", "h1")]] }

/-- A concrete backend whose transaction-type probe is conclusive for
every index — it reports trace-shaped content (a nonempty bucket list)
even for `metrics-*` — while all other requests succeed. -/
def contentBlindBackend : Backend where
  connProbe := some 200
  patternSearch := fun p => some { status := 200, urlIndex := p }
  traceAgg := fun _ => some [{ key := "request", doc_count := 120 }]
  metricsAggQuery := fun _ => some { status := 200, hasAggregations := true, buckets := [] }
  sampleQuery := fun _ _ => none

/-- A concrete backend used to instantiate the name-only classification
theorem: all requests succeed and the metrics aggregation is empty. -/
def nameOnlyBackend : Backend where
  connProbe := some 200
  patternSearch := fun p => some { status := 200, urlIndex := p }
  traceAgg := fun _ => some []
  metricsAggQuery := fun _ => some { status := 200, hasAggregations := false, buckets := [] }
  sampleQuery := fun _ _ => none

/-- A concrete pattern-search function where the first pattern succeeds
with status 200 but the second raises a transport exception. -/
def abortResolveSearch : String → Option Response := fun p =>
  if p == "apm-*" then some { status := 200, urlIndex := "apm-*" }
  else if p == "traces-*" then none
  else some { status := 200, urlIndex := p }

/-- A concrete pattern-search function where no request raises, one
pattern returns a non-success status, and two patterns resolve to the
same name (exercising deduplication). -/
def mixedStatusSearch : String → Option Response := fun p =>
  if p == "apm-*" then some { status := 200, urlIndex := "apm-idx" }
  else if p == "traces-*" then some { status := 404, urlIndex := "traces-*" }
  else some { status := 200, urlIndex := "shared-idx" }

/-- A concrete backend whose connectivity probe raises a transport
exception. -/
def downBackend : Backend where
  connProbe := none
  patternSearch := fun p => some { status := 200, urlIndex := p }
  traceAgg := fun _ => some []
  metricsAggQuery := fun _ => some { status := 200, hasAggregations := true, buckets := [{ key := "system", doc_count := 50 }] }
  sampleQuery := fun _ _ => some { status := 200, hits := [[("host.name", "h1")]] }

/-- A concrete backend whose metricset aggregation yields two buckets and
whose follow-up sample query raises for the first metricset (`system`)
but would succeed for the second (`cpu`). -/
def abortSampleBackend : Backend where
  connProbe := some 200
  patternSearch := fun p => some { status := 200, urlIndex := p }
  traceAgg := fun _ => some []
  metricsAggQuery := fun _ => some { status := 200, hasAggregations := true, buckets := [{ key := "system", doc_count := 50 }, { key := "cpu", doc_count := 30 }] }
  sampleQuery := fun _ k => if k == "system" then none
    else some { status := 200, hits := [[("host.name", "h1")]] }

/-- A concrete sample-query function that never raises: it returns a
non-success status for `system` and a successful response with one hit
for everything else. -/
def mixedSampleFun : String → Option SampleResp := fun k =>
  if k == "system" then some { status := 500, hits := [] }
  else some { status := 200, hits := [[("host.name", "h1")]] }

/-- The two metricset buckets used to instantiate the sample-loop
theorem. -/
def twoBuckets : List Bucket :=
  [{ key := "system", doc_count := 50 }, { key := "cpu", doc_count := 30 }]

/-- A concrete backend combining `twoBuckets` with a sample query that
never raises (via `mixedSampleFun`, ignoring the index argument). -/
def mixedSampleBackend : Backend where
  connProbe := some 200
  patternSearch := fun p => some { status := 200, urlIndex := p }
  traceAgg := fun _ => some []
  metricsAggQuery := fun _ => some { status := 200, hasAggregations := true, buckets := twoBuckets }
  sampleQuery := fun _ k => mixedSampleFun k

/-! ### Generator and classifier lemmas -/

theorem generate_eq_metricsTemplates (index : String) (sd : Option SampleDoc)
    (h : isMetricsIndex index = true) :
    generate_esql_examples index sd = metricsTemplates index := by
  unfold generate_esql_examples
  rw [h]
  simp

theorem generate_eq_traceTemplates (index : String) (sd : Option SampleDoc)
    (h : isMetricsIndex index = false) :
    generate_esql_examples index sd = traceTemplates index := by
  unfold generate_esql_examples
  rw [h]
  simp

/-- C3: for every index name, the generator returns exactly the 4 metrics
templates, in the fixed order CPU/cores-and-memory, load averages, memory,
filesystem, when the classified shape is `Metrics`, and exactly the 5
trace/default templates, in the fixed order duration analysis, error
analysis, service performance, span analysis, response-time analysis,
otherwise. -/
theorem C3_fixed_catalogs (index : String) (sd : Option SampleDoc) :
    ((generate_esql_examples index sd).map Template.title =
      if classify index = IndexShape.Metrics then
        ["System Metrics Analysis", "System Load Analysis",
         "Memory Usage Analysis", "Filesystem Analysis"]
      else
        ["Transaction Duration Analysis", "Error Analysis",
         "Service Performance", "Span Analysis", "Response Time Analysis"]) ∧
    (generate_esql_examples index sd).length =
      (if classify index = IndexShape.Metrics then 4 else 5) := by
  unfold generate_esql_examples classify
  cases h : isMetricsIndex index <;>
    simp [h, metricsTemplates, traceTemplates]

/-- C4: the template generator is a deterministic pure function of its
inputs — two calls with the same `(index, sample_doc)` yield identical
output. -/
theorem C4_generate_deterministic (index : String) (sd : Option SampleDoc)
    (out1 out2 : List Template)
    (h1 : out1 = generate_esql_examples index sd)
    (h2 : out2 = generate_esql_examples index sd) :
    out1 = out2 :=
  h1.trans h2.symm

theorem C4_generate_deterministic_witness :
    generate_esql_examples "logs-*" none = generate_esql_examples "logs-*" none :=
  C4_generate_deterministic "logs-*" none
    (generate_esql_examples "logs-*" none) (generate_esql_examples "logs-*" none)
    rfl rfl

set_option maxRecDepth 20000 in
/-- C5, counterexample: for the index name `request` it is not the case
that every generated template contains the index name exactly once — the
response-time template also matches on the literal `request` transaction
type, so the name occurs twice there. -/
theorem C5_counterexample :
    ¬ ∀ t ∈ generate_esql_examples "request" none,
        strCountOcc t.esql "request" = 1 := by
  decide

/-- C5, amended: every generated template embeds the literal index name by
exact substitution into the source clause — its query text is a fixed
prefix ending in `FROM` and a space, then the whole index name, then a
newline and the fixed remainder of the query.  (The name need not occur
exactly once in the whole text: it may also occur in the fixed query text,
as the counterexample shows.) -/
theorem C5_amended_exact_from_clause (index : String) (sd : Option SampleDoc) :
    ∀ t ∈ generate_esql_examples index sd,
      ∃ rest, t.esql = "\n                FROM " ++ index ++ ("\n" ++ rest) := by
  intro t ht
  unfold generate_esql_examples at ht
  cases h : isMetricsIndex index <;> simp only [h] at ht
  · simp only [Bool.false_eq_true, if_false, traceTemplates,
      List.mem_cons, List.mem_singleton, List.not_mem_nil, or_false] at ht
    rcases ht with rfl | rfl | rfl | rfl | rfl
    · exact ⟨"                | WHERE transaction.type IS NOT NULL\n                | STATS \n                    avg_duration = AVG(transaction.duration.us),\n                    p95_duration = PERCENTILE(transaction.duration.us, 95),\n                    count = COUNT()\n                    BY transaction.type\n                | SORT avg_duration DESC\n                ", rfl⟩
    · exact ⟨"                | WHERE transaction.result == \"error\"\n                | STATS \n                    error_count = COUNT(),\n                    avg_duration = AVG(transaction.duration.us)\n                    BY transaction.type\n                | SORT error_count DESC\n                ", rfl⟩
    · exact ⟨"                | WHERE service.name IS NOT NULL\n                | STATS \n                    avg_duration = AVG(transaction.duration.us),\n                    p95_duration = PERCENTILE(transaction.duration.us, 95),\n                    count = COUNT()\n                    BY service.name\n                | SORT avg_duration DESC\n                ", rfl⟩
    · exact ⟨"                | WHERE span.type IS NOT NULL\n                | STATS \n                    avg_duration = AVG(span.duration.us),\n                    count = COUNT()\n                    BY span.type, service.name\n                | SORT avg_duration DESC\n                ", rfl⟩
    · exact ⟨"                | WHERE transaction.type == \"request\"\n                | STATS \n                    avg_duration = AVG(transaction.duration.us),\n                    p95_duration = PERCENTILE(transaction.duration.us, 95),\n                    count = COUNT()\n                    BY transaction.name\n                | SORT avg_duration DESC\n                ", rfl⟩
  · simp only [if_true, metricsTemplates,
      List.mem_cons, List.mem_singleton, List.not_mem_nil, or_false] at ht
    rcases ht with rfl | rfl | rfl | rfl
    · exact ⟨"                | WHERE metricset.name == \"system\"\n                | STATS \n                    avg_cpu = AVG(system.cpu.cores),\n                    avg_memory = AVG(system.memory.actual.used.pct)\n                    BY host.name\n                | SORT avg_cpu DESC\n                ", rfl⟩
    · exact ⟨"                | WHERE metricset.name == \"system\"\n                | STATS \n                    avg_load_1m = AVG(system.load.1),\n                    avg_load_5m = AVG(system.load.5),\n                    avg_load_15m = AVG(system.load.15)\n                    BY host.name\n                | SORT avg_load_1m DESC\n                ", rfl⟩
    · exact ⟨"                | WHERE metricset.name == \"system\"\n                | STATS \n                    avg_memory_used = AVG(system.memory.actual.used.pct),\n                    avg_memory_free = AVG(system.memory.actual.free.pct)\n                    BY host.name\n                | SORT avg_memory_used DESC\n                ", rfl⟩
    · exact ⟨"                | WHERE metricset.name == \"system\"\n                | STATS \n                    avg_disk_used = AVG(system.filesystem.used.pct),\n                    avg_disk_free = AVG(system.filesystem.free.pct)\n                    BY host.name, system.filesystem.mount_point\n                | SORT avg_disk_used DESC\n                ", rfl⟩

theorem C5_amended_exact_from_clause_witness :
    ∃ rest, ((traceTemplates "apm-*").headI).esql =
      "\n                FROM " ++ "apm-*" ++ ("\n" ++ rest) :=
  C5_amended_exact_from_clause "apm-*" none ((traceTemplates "apm-*").headI)
    (by set_option maxRecDepth 20000 in decide)

/-- C9: the generator output is independent of the `sample_doc` argument —
the parameter is never read, so any two values (including `none`) give
identical template sequences. -/
theorem C9_sample_doc_ignored (index : String) (sd1 sd2 : Option SampleDoc) :
    generate_esql_examples index sd1 = generate_esql_examples index sd2 := rfl

/-- C10: the missing-configuration branch of the constructor is
unreachable — after the unconditional module-level assignments of
`main.py:17` and `main.py:18`, both variables read by `__init__` are the
fixed non-empty literals, whatever the prior environment was, so the
`ValueError` guard is false. -/
theorem C10_init_guard_unreachable (e0 : Env) :
    initRaises (moduleEnv e0) = false := rfl

/-! ### Resolver lemmas -/

theorem resolveLoop_nil (search : String → Option Response) (acc : List String) :
    resolveLoop search [] acc = ([], some acc) := rfl

theorem resolveLoop_cons_none (search : String → Option Response)
    (p : String) (ps : List String) (acc : List String)
    (h : search p = none) :
    resolveLoop search (p :: ps) acc = ([Call.resolvePattern p], none) := by
  rw [resolveLoop.eq_def]
  simp only [h]

theorem resolveLoop_cons_some (search : String → Option Response)
    (p : String) (ps : List String) (acc : List String) (r : Response)
    (h : search p = some r) :
    resolveLoop search (p :: ps) acc =
      (Call.resolvePattern p ::
        (resolveLoop search ps
          (if r.status == 200 then insertDedup acc r.urlIndex else acc)).1,
       (resolveLoop search ps
          (if r.status == 200 then insertDedup acc r.urlIndex else acc)).2) := by
  rw [resolveLoop.eq_def]
  simp only [h]

theorem mem_insertDedup (acc : List String) (y x : String) :
    x ∈ insertDedup acc y ↔ x ∈ acc ∨ x = y := by
  unfold insertDedup
  by_cases h : y ∈ acc
  · simp only [h, if_true]
    constructor
    · exact Or.inl
    · rintro (hx | rfl)
      · exact hx
      · exact h
  · simp [h]

theorem nodup_insertDedup (acc : List String) (y : String) (h : acc.Nodup) :
    (insertDedup acc y).Nodup := by
  unfold insertDedup
  by_cases hy : y ∈ acc
  · simpa [hy]
  · simp [hy, List.nodup_append, h]

theorem resolveLoop_ok_spec (search : String → Option Response)
    (ps : List String) : ∀ acc : List String,
    (∀ p ∈ ps, search p ≠ none) →
    ∃ found, (resolveLoop search ps acc).2 = some found ∧
      (∀ x, x ∈ found ↔ x ∈ acc ∨
        ∃ p r, p ∈ ps ∧ search p = some r ∧ r.status = 200 ∧ r.urlIndex = x) ∧
      (acc.Nodup → found.Nodup) := by
  induction ps with
  | nil =>
    intro acc _
    exact ⟨acc, rfl, by simp, fun hz => hz⟩
  | cons p ps ih =>
    intro acc hok
    cases hp : search p with
    | none => exact absurd hp (hok p (by simp))
    | some r =>
      have hok2 : ∀ q ∈ ps, search q ≠ none := fun q hq => hok q (by simp [hq])
      rw [resolveLoop_cons_some search p ps acc r hp]
      by_cases hs : r.status = 200
      · have hsb : (r.status == 200) = true := by simpa using hs
        rw [if_pos hsb]
        obtain ⟨found, hfound, hmem, hnd⟩ := ih (insertDedup acc r.urlIndex) hok2
        refine ⟨found, hfound, ?_, ?_⟩
        · intro x
          rw [hmem x, mem_insertDedup]
          constructor
          · rintro ((hx | rfl) | ⟨q, rq, hq, hsr, hst, hurl⟩)
            · exact Or.inl hx
            · exact Or.inr ⟨p, r, by simp, hp, hs, rfl⟩
            · exact Or.inr ⟨q, rq, by simp [hq], hsr, hst, hurl⟩
          · rintro (hx | ⟨q, rq, hq, hsr, hst, hurl⟩)
            · exact Or.inl (Or.inl hx)
            · rcases List.mem_cons.mp hq with heq | hq2
              · subst heq
                rw [hp] at hsr
                cases hsr
                exact Or.inl (Or.inr hurl.symm)
              · exact Or.inr ⟨q, rq, hq2, hsr, hst, hurl⟩
        · intro hnda
          exact hnd (nodup_insertDedup acc r.urlIndex hnda)
      · have hsneq : ¬ ((r.status == 200) = true) := by simp [hs]
        rw [if_neg hsneq]
        obtain ⟨found, hfound, hmem, hnd⟩ := ih acc hok2
        refine ⟨found, hfound, ?_, hnd⟩
        intro x
        rw [hmem x]
        constructor
        · rintro (hx | ⟨q, rq, hq, hsr, hst, hurl⟩)
          · exact Or.inl hx
          · exact Or.inr ⟨q, rq, by simp [hq], hsr, hst, hurl⟩
        · rintro (hx | ⟨q, rq, hq, hsr, hst, hurl⟩)
          · exact Or.inl hx
          · rcases List.mem_cons.mp hq with heq | hq2
            · subst heq
              rw [hp] at hsr
              cases hsr
              exact absurd hst hs
            · exact Or.inr ⟨q, rq, hq2, hsr, hst, hurl⟩

/-- C6, counterexample: one pattern raising a transport error is not
silently skipped — it wipes out the names contributed by the other
patterns.  Here `apm-*` succeeds with status 200, `traces-*` raises, and
the resolver returns the empty list instead of a set containing
`apm-*`. -/
theorem C6_counterexample :
    abortResolveSearch "apm-*" = some { status := 200, urlIndex := "apm-*" } ∧
    abortResolveSearch "traces-*" = none ∧
    get_apm_indices abortResolveSearch = [] := by
  refine ⟨rfl, rfl, rfl⟩

/-- C6, amended: when no pattern request raises, the resolver behaves as
the claim says — any pattern returning a non-success response is silently
skipped without affecting the names contributed by the other patterns
(a name is returned iff some pattern succeeded with status 200 and
resolved to it), and the returned collection is deduplicated.  A pattern
that raises, however, aborts resolution and discards every contribution
(see the counterexample). -/
theorem C6_amended_skip_nonsuccess (search : String → Option Response)
    (hok : ∀ p ∈ apm_patterns, search p ≠ none) :
    (get_apm_indices search).Nodup ∧
    ∀ x, x ∈ get_apm_indices search ↔
      ∃ p r, p ∈ apm_patterns ∧ search p = some r ∧
        r.status = 200 ∧ r.urlIndex = x := by
  obtain ⟨found, hfound, hmem, hnd⟩ :=
    resolveLoop_ok_spec search apm_patterns [] hok
  have hga : get_apm_indices search = found := by
    unfold get_apm_indices
    rw [hfound]
  rw [hga]
  refine ⟨hnd (by simp), fun x => ?_⟩
  rw [hmem x]
  simp

theorem C6_amended_skip_nonsuccess_witness :
    (get_apm_indices mixedStatusSearch).Nodup ∧
    ∀ x, x ∈ get_apm_indices mixedStatusSearch ↔
      ∃ p r, p ∈ apm_patterns ∧ mixedStatusSearch p = some r ∧
        r.status = 200 ∧ r.urlIndex = x :=
  C6_amended_skip_nonsuccess mixedStatusSearch (by decide)

/-- C7: the connectivity probe returns true only on an HTTP 200 response
(any transport failure or non-success status yields false), and whenever
it returns false the pipeline performs no further backend call: its whole
trace is the single probe call, with no resolver, classifier, or analyzer
invocation. -/
theorem C7_probe_gates_pipeline (b : Backend) :
    (test_connection b.connProbe = true ↔ b.connProbe = some 200) ∧
    (test_connection b.connProbe = false → run_analysis b = [Call.connProbe]) := by
  constructor
  · unfold test_connection
    cases h : b.connProbe with
    | none => simp
    | some status =>
      by_cases hs : status = 200
      · subst hs
        simp
      · simp [hs]
  · intro hfail
    unfold run_analysis
    rw [hfail]
    simp

theorem C7_probe_gates_pipeline_witness :
    run_analysis downBackend = [Call.connProbe] :=
  (C7_probe_gates_pipeline downBackend).2 rfl

/-! ### Metrics-analyzer lemmas -/

theorem sampleLoop_nil (sample : String → Option SampleResp) (index : String) :
    metricsSampleLoop sample index [] = ([], true) := rfl

theorem sampleLoop_cons_none (sample : String → Option SampleResp)
    (index : String) (bk : Bucket) (bks : List Bucket)
    (h : sample bk.key = none) :
    metricsSampleLoop sample index (bk :: bks) =
      ([Call.metricsSample index bk.key], false) := by
  rw [metricsSampleLoop.eq_def]
  simp only [h]

theorem sampleLoop_cons_some (sample : String → Option SampleResp)
    (index : String) (bk : Bucket) (bks : List Bucket) (r : SampleResp)
    (h : sample bk.key = some r) :
    metricsSampleLoop sample index (bk :: bks) =
      if r.status == 200 && !r.hits.isEmpty then
        (Call.metricsSample index bk.key :: Call.sampleShown index bk.key ::
          (metricsSampleLoop sample index bks).1,
         (metricsSampleLoop sample index bks).2)
      else
        (Call.metricsSample index bk.key :: (metricsSampleLoop sample index bks).1,
         (metricsSampleLoop sample index bks).2) := by
  rw [metricsSampleLoop.eq_def]
  simp only [h]

theorem analyze_none_eq (b : Backend) (index : String)
    (h : b.metricsAggQuery index = none) :
    analyze_metrics_data b index = ([Call.metricsAgg index], false) := by
  unfold analyze_metrics_data
  rw [h]

theorem analyze_some_eq (b : Backend) (index : String) (r : MetricsAggResp)
    (h : b.metricsAggQuery index = some r) :
    analyze_metrics_data b index =
      if r.status == 200 then
        if r.hasAggregations then
          if r.buckets.isEmpty then ([Call.metricsAgg index], true)
          else (Call.metricsAgg index ::
                  (metricsSampleLoop (b.sampleQuery index) index r.buckets).1,
                (metricsSampleLoop (b.sampleQuery index) index r.buckets).2)
        else ([Call.metricsAgg index], true)
      else ([Call.metricsAgg index], true) := by
  unfold analyze_metrics_data
  rw [h]

theorem metricsAgg_mem_analyze (b : Backend) (index : String) :
    Call.metricsAgg index ∈ (analyze_metrics_data b index).1 := by
  cases hq : b.metricsAggQuery index with
  | none =>
    rw [analyze_none_eq b index hq]
    simp
  | some r =>
    rw [analyze_some_eq b index r hq]
    split_ifs <;> simp

theorem sampleLoop_calls_shape (sample : String → Option SampleResp)
    (index : String) :
    ∀ bks : List Bucket, ∀ c ∈ (metricsSampleLoop sample index bks).1,
      (∃ k, c = Call.metricsSample index k) ∨ ∃ k, c = Call.sampleShown index k := by
  intro bks
  induction bks with
  | nil =>
    intro c hc
    rw [sampleLoop_nil] at hc
    cases hc
  | cons bk bks ih =>
    intro c hc
    cases hs : sample bk.key with
    | none =>
      rw [sampleLoop_cons_none sample index bk bks hs] at hc
      simp at hc
      exact Or.inl ⟨bk.key, hc⟩
    | some r =>
      rw [sampleLoop_cons_some sample index bk bks r hs] at hc
      by_cases hcnd : (r.status == 200 && !r.hits.isEmpty) = true
      · rw [if_pos hcnd] at hc
        simp only [List.mem_cons] at hc
        rcases hc with rfl | rfl | hc
        · exact Or.inl ⟨bk.key, rfl⟩
        · exact Or.inr ⟨bk.key, rfl⟩
        · exact ih c hc
      · rw [if_neg hcnd] at hc
        simp only [List.mem_cons] at hc
        rcases hc with rfl | hc
        · exact Or.inl ⟨bk.key, rfl⟩
        · exact ih c hc

theorem sampleLoop_no_raise (sample : String → Option SampleResp)
    (index : String) :
    ∀ bks : List Bucket, (∀ bk ∈ bks, sample bk.key ≠ none) →
      (metricsSampleLoop sample index bks).2 = true ∧
      ∀ bk ∈ bks,
        Call.metricsSample index bk.key ∈ (metricsSampleLoop sample index bks).1 := by
  intro bks
  induction bks with
  | nil =>
    intro _
    refine ⟨rfl, ?_⟩
    intro bk hbk
    cases hbk
  | cons bk bks ih =>
    intro hok
    cases hs : sample bk.key with
    | none => exact absurd hs (hok bk (by simp))
    | some r =>
      have hok2 : ∀ q ∈ bks, sample q.key ≠ none := fun q hq => hok q (by simp [hq])
      obtain ⟨hcompl, hmem⟩ := ih hok2
      rw [sampleLoop_cons_some sample index bk bks r hs]
      by_cases hcnd : (r.status == 200 && !r.hits.isEmpty) = true
      · rw [if_pos hcnd]
        refine ⟨hcompl, ?_⟩
        intro q hq
        rcases List.mem_cons.mp hq with heq | hq2
        · subst heq
          exact List.mem_cons_self _ _
        · exact List.mem_cons_of_mem _ (List.mem_cons_of_mem _ (hmem q hq2))
      · rw [if_neg hcnd]
        refine ⟨hcompl, ?_⟩
        intro q hq
        rcases List.mem_cons.mp hq with heq | hq2
        · subst heq
          exact List.mem_cons_self _ _
        · exact List.mem_cons_of_mem _ (hmem q hq2)

theorem analyze_calls_shape (b : Backend) (index : String) :
    ∀ c ∈ (analyze_metrics_data b index).1,
      c = Call.metricsAgg index ∨ (∃ k, c = Call.metricsSample index k) ∨
        ∃ k, c = Call.sampleShown index k := by
  intro c hc
  cases hq : b.metricsAggQuery index with
  | none =>
    rw [analyze_none_eq b index hq] at hc
    simp at hc
    exact Or.inl hc
  | some r =>
    rw [analyze_some_eq b index r hq] at hc
    by_cases h1 : (r.status == 200) = true
    case neg =>
      rw [if_neg h1] at hc
      simp at hc
      exact Or.inl hc
    case pos =>
      rw [if_pos h1] at hc
      by_cases h2 : r.hasAggregations = true
      case neg =>
        rw [if_neg h2] at hc
        simp at hc
        exact Or.inl hc
      case pos =>
        rw [if_pos h2] at hc
        by_cases h3 : r.buckets.isEmpty = true
        case pos =>
          rw [if_pos h3] at hc
          simp at hc
          exact Or.inl hc
        case neg =>
          rw [if_neg h3] at hc
          simp only [List.mem_cons] at hc
          rcases hc with rfl | hc
          · exact Or.inl rfl
          · rcases sampleLoop_calls_shape (b.sampleQuery index) index r.buckets c hc
              with h | h
            · exact Or.inr (Or.inl h)
            · exact Or.inr (Or.inr h)

set_option maxRecDepth 40000 in
/-- C8, counterexample: a follow-up sample query that raises a transport
error does abort the loop over the remaining metric-set buckets.  Here the
aggregation returns the buckets `system` and `cpu`, the `system` sample
query raises, and the analyzer stops — it returns `False` and never issues
the `cpu` sample query — instead of merely suppressing the `system`
sample. -/
theorem C8_counterexample :
    abortSampleBackend.metricsAggQuery "metrics-*" =
      some { status := 200, hasAggregations := true, buckets := [{ key := "system", doc_count := 50 }, { key := "cpu", doc_count := 30 }] } ∧
    (analyze_metrics_data abortSampleBackend "metrics-*").2 = false ∧
    Call.metricsSample "metrics-*" "system" ∈
      (analyze_metrics_data abortSampleBackend "metrics-*").1 ∧
    Call.metricsSample "metrics-*" "cpu" ∉
      (analyze_metrics_data abortSampleBackend "metrics-*").1 := by
  decide

/-- C8, amended: when no follow-up sample request raises, a per-bucket
failure (a non-success response, whose sample is merely not shown) never
aborts the loop: the analyzer still issues the sample query of every
metric-set bucket and returns `True`.  A follow-up that raises, however,
is caught by the method-level handler and aborts the loop over the
remaining buckets (see the counterexample). -/
theorem C8_amended_no_raise_no_abort (b : Backend) (index : String)
    (r : MetricsAggResp)
    (hq : b.metricsAggQuery index = some r)
    (hst : r.status = 200) (hagg : r.hasAggregations = true)
    (hok : ∀ bk ∈ r.buckets, b.sampleQuery index bk.key ≠ none) :
    (analyze_metrics_data b index).2 = true ∧
    ∀ bk ∈ r.buckets,
      Call.metricsSample index bk.key ∈ (analyze_metrics_data b index).1 := by
  rw [analyze_some_eq b index r hq]
  rw [if_pos (by simpa using hst), if_pos hagg]
  by_cases he : r.buckets.isEmpty = true
  · rw [if_pos he]
    refine ⟨rfl, ?_⟩
    intro bk hbk
    rw [List.isEmpty_iff] at he
    rw [he] at hbk
    cases hbk
  · rw [if_neg he]
    obtain ⟨hcompl, hmem⟩ :=
      sampleLoop_no_raise (b.sampleQuery index) index r.buckets hok
    refine ⟨hcompl, ?_⟩
    intro bk hbk
    exact List.mem_cons_of_mem _ (hmem bk hbk)

theorem C8_amended_no_raise_no_abort_witness :
    (analyze_metrics_data mixedSampleBackend "metrics-*").2 = true ∧
    ∀ bk ∈ ({ status := 200, hasAggregations := true, buckets := twoBuckets } : MetricsAggResp).buckets,
      Call.metricsSample "metrics-*" bk.key ∈
        (analyze_metrics_data mixedSampleBackend "metrics-*").1 :=
  C8_amended_no_raise_no_abort mixedSampleBackend "metrics-*" { status := 200, hasAggregations := true, buckets := twoBuckets } rfl rfl rfl (by decide)

/-! ### Pipeline-trace lemmas -/

theorem run_conn_false (b : Backend) (h : test_connection b.connProbe = false) :
    run_analysis b = [Call.connProbe] := by
  unfold run_analysis
  rw [h]
  simp

theorem run_conn_true (b : Backend) (h : test_connection b.connProbe = true) :
    run_analysis b = Call.connProbe ::
      ((resolveLoop b.patternSearch apm_patterns []).1 ++
        (if (get_apm_indices b.patternSearch).isEmpty then []
         else ((get_apm_indices b.patternSearch).map (perIndex b)).flatten)) := by
  unfold run_analysis
  rw [h]
  simp

theorem templates_mem_perIndex (b : Backend) (index : String) :
    Call.templates index (generate_esql_examples index none) ∈ perIndex b index := by
  unfold perIndex
  simp

theorem analyze_mem_perIndex (b : Backend) (index : String)
    (hm : isMetricsIndex index = true) (c : Call)
    (hc : c ∈ (analyze_metrics_data b index).1) : c ∈ perIndex b index := by
  unfold perIndex
  rw [if_pos hm]
  exact List.mem_append_left _ hc

theorem mem_run_of_mem_perIndex (b : Backend) (index : String) (c : Call)
    (hconn : test_connection b.connProbe = true)
    (hres : index ∈ resolvedIndices b)
    (hc : c ∈ perIndex b index) : c ∈ run_analysis b := by
  rw [run_conn_true b hconn]
  have hne : (get_apm_indices b.patternSearch).isEmpty = false := by
    unfold resolvedIndices at hres
    cases hl : get_apm_indices b.patternSearch with
    | nil =>
      rw [hl] at hres
      cases hres
    | cons a l => rfl
  rw [hne]
  simp only [Bool.false_eq_true, if_false]
  refine List.mem_cons_of_mem _ (List.mem_append_right _ ?_)
  rw [List.mem_flatten]
  exact ⟨perIndex b index, List.mem_map_of_mem _ hres, hc⟩

theorem resolveLoop_calls_shape (search : String → Option Response) :
    ∀ ps acc : List String, ∀ c ∈ (resolveLoop search ps acc).1,
      ∃ p, c = Call.resolvePattern p := by
  intro ps
  induction ps with
  | nil =>
    intro acc c hc
    rw [resolveLoop_nil] at hc
    cases hc
  | cons p ps ih =>
    intro acc c hc
    cases hp : search p with
    | none =>
      rw [resolveLoop_cons_none search p ps acc hp] at hc
      simp at hc
      exact ⟨p, hc⟩
    | some r =>
      rw [resolveLoop_cons_some search p ps acc r hp] at hc
      simp only [List.mem_cons] at hc
      rcases hc with rfl | hc
      · exact ⟨p, rfl⟩
      · exact ih _ c hc

theorem perIndex_metricsAgg_inv (b : Backend) (i j : String)
    (h : Call.metricsAgg j ∈ perIndex b i) :
    j = i ∧ isMetricsIndex i = true := by
  unfold perIndex at h
  cases hm : isMetricsIndex i with
  | false =>
    rw [hm] at h
    simp at h
  | true =>
    rw [hm] at h
    simp only [if_true, List.mem_append, List.mem_singleton] at h
    rcases h with h | h
    · rcases analyze_calls_shape b i _ h with h1 | ⟨k, h1⟩ | ⟨k, h1⟩
      · injection h1 with hji
        exact ⟨hji, rfl⟩
      · exact absurd h1 (by simp)
      · exact absurd h1 (by simp)
    · exact absurd h (by simp)

theorem run_metricsAgg_inv (b : Backend) (j : String)
    (h : Call.metricsAgg j ∈ run_analysis b) :
    isMetricsIndex j = true ∧ j ∈ resolvedIndices b := by
  cases hconn : test_connection b.connProbe with
  | false =>
    rw [run_conn_false b hconn] at h
    simp at h
  | true =>
    rw [run_conn_true b hconn] at h
    simp only [List.mem_cons, List.mem_append] at h
    rcases h with h | h | h
    · exact absurd h (by simp)
    · rcases resolveLoop_calls_shape b.patternSearch apm_patterns [] _ h with ⟨p, hp⟩
      exact absurd hp (by simp)
    · by_cases he : (get_apm_indices b.patternSearch).isEmpty = true
      · rw [if_pos he] at h
        cases h
      · rw [if_neg he] at h
        rw [List.mem_flatten] at h
        obtain ⟨l, hl, hcl⟩ := h
        rw [List.mem_map] at hl
        obtain ⟨i, hi, rfl⟩ := hl
        obtain ⟨rfl, hmi⟩ := perIndex_metricsAgg_inv b i j hcl
        exact ⟨hmi, hi⟩

/-- C1: for every resolved index whose name contains the metrics marker,
the pipeline classifies it as `Metrics` and handles it accordingly — it
invokes the metrics analyzer on it and emits the metrics template catalog
for it; for every resolved index without the marker whose trace probe
succeeds with zero or more buckets, the classification is `Trace` and the
pipeline emits the trace/default template catalog for it. -/
theorem C1_marker_classification (b : Backend) (index : String)
    (hconn : test_connection b.connProbe = true)
    (hres : index ∈ resolvedIndices b) :
    (isMetricsIndex index = true →
      classify index = IndexShape.Metrics ∧
      Call.metricsAgg index ∈ run_analysis b ∧
      Call.templates index (metricsTemplates index) ∈ run_analysis b) ∧
    (isMetricsIndex index = false →
      ∀ bs, b.traceAgg index = some bs →
        classify index = IndexShape.Trace ∧
        Call.templates index (traceTemplates index) ∈ run_analysis b) := by
  constructor
  · intro hm
    refine ⟨?_, ?_, ?_⟩
    · unfold classify
      rw [if_pos hm]
    · exact mem_run_of_mem_perIndex b index _ hconn hres
        (analyze_mem_perIndex b index hm _ (metricsAgg_mem_analyze b index))
    · have ht := templates_mem_perIndex b index
      rw [generate_eq_metricsTemplates index none hm] at ht
      exact mem_run_of_mem_perIndex b index _ hconn hres ht
  · intro hm bs _
    refine ⟨?_, ?_⟩
    · unfold classify
      rw [if_neg (by simp [hm])]
    · have ht := templates_mem_perIndex b index
      rw [generate_eq_traceTemplates index none hm] at ht
      exact mem_run_of_mem_perIndex b index _ hconn hres ht

set_option maxRecDepth 100000 in
theorem C1_marker_classification_witness :
    classify "metrics-*" = IndexShape.Metrics ∧
    Call.metricsAgg "metrics-*" ∈ run_analysis happyBackend ∧
    Call.templates "metrics-*" (metricsTemplates "metrics-*") ∈
      run_analysis happyBackend :=
  (C1_marker_classification happyBackend "metrics-*" (by decide) (by decide)).1
    (by decide)

set_option maxRecDepth 100000 in
/-- C2, counterexample: the shape decision is not made from
backend-observed aggregation content.  On this backend the trace probe
for `metrics-*` is conclusive — it reports nonempty trace-shaped content —
yet the pipeline still handles `metrics-*` as `Metrics` (metrics analyzer
and metrics catalog), purely because of the name marker: naming is the
basis of the decision, not a fallback for an inconclusive probe. -/
theorem C2_counterexample :
    analyze_trace_data (contentBlindBackend.traceAgg "metrics-*") =
      [{ key := "request", doc_count := 120 }] ∧
    Call.metricsAgg "metrics-*" ∈ run_analysis contentBlindBackend ∧
    Call.templates "metrics-*" (metricsTemplates "metrics-*") ∈
      run_analysis contentBlindBackend := by
  refine ⟨rfl, ?_, ?_⟩
  · exact mem_run_of_mem_perIndex contentBlindBackend "metrics-*" _ (by decide)
      (by decide)
      (analyze_mem_perIndex contentBlindBackend "metrics-*" (by decide) _
        (metricsAgg_mem_analyze contentBlindBackend "metrics-*"))
  · have ht := templates_mem_perIndex contentBlindBackend "metrics-*"
    rw [generate_eq_metricsTemplates "metrics-*" none (by decide)] at ht
    exact mem_run_of_mem_perIndex contentBlindBackend "metrics-*" _ (by decide)
      (by decide) ht

/-- C2, amended: every shape decision is made from the index name alone —
the pipeline probes the metricset aggregation of a resolved index exactly
when the name contains the metrics marker, so aggregation content is
consulted only as a consequence of the classification, never as its
basis. -/
theorem C2_amended_name_based (b : Backend) (index : String)
    (hconn : test_connection b.connProbe = true)
    (hres : index ∈ resolvedIndices b) :
    Call.metricsAgg index ∈ run_analysis b ↔ isMetricsIndex index = true := by
  constructor
  · intro h
    exact (run_metricsAgg_inv b index h).1
  · intro hm
    exact mem_run_of_mem_perIndex b index _ hconn hres
      (analyze_mem_perIndex b index hm _ (metricsAgg_mem_analyze b index))

set_option maxRecDepth 100000 in
theorem C2_amended_name_based_witness :
    Call.metricsAgg "metrics-*" ∈ run_analysis nameOnlyBackend ↔
      isMetricsIndex "metrics-*" = true :=
  C2_amended_name_based nameOnlyBackend "metrics-*" (by decide) (by decide)

end O11ybot
